import Mathlib

/-!
Verification of the g4-driver BLDC motor firmware's FOC core.

The Rust source is shallowly embedded in Lean: `f32` values are idealised as
exact rationals (`ℚ`), machine integers (`u8`, `u16`, `u32`, `i32`) as `ℕ`/`ℤ`,
and fallible operations as `Except`.  Floating-point literals are taken at
their decimal value; the hardware constants `core::f32::consts::TAU` and `PI`
are taken at their exact `f32` values (they have no exact decimal source
text).  Trigonometric and square-root primitives (`idsp::cossin`, `libm`)
are abstracted as explicit oracle parameters, so every theorem about code
paths that do not evaluate them holds for all oracles.
-/

namespace G4

/-- Exact rational value of the `f32` constant `core::f32::consts::TAU`
(bit pattern `0x40C90FDB`, i.e. `13176795 / 2^21`). -/
def tau : ℚ := 13176795 / 2097152

/-- Exact rational value of the `f32` constant `core::f32::consts::PI`
(`13176795 / 2^22`). -/
def fpi : ℚ := 13176795 / 4194304

/-- Rust `f32::clamp(self, lo, hi)`: `lo` if below, `hi` if above, else unchanged. -/
def ratClamp (x lo hi : ℚ) : ℚ := if x < lo then lo else if x > hi then hi else x

/-- Truncation toward zero, as performed by Rust's float-to-int `as` casts and
by the float remainder operator. -/
def ratTrunc (q : ℚ) : ℤ := if 0 ≤ q then ⌊q⌋ else -⌊-q⌋

/-- `libm::roundf`: round to nearest, ties away from zero. -/
def roundf (q : ℚ) : ℚ := if 0 ≤ q then ((⌊q + 1/2⌋ : ℤ) : ℚ) else ((-⌊-q + 1/2⌋ : ℤ) : ℚ)

/-- The result of the angle-normalisation idiom
`while a >= TAU { a -= TAU }; while a < 0.0 { a += TAU }`:
for `tau > 0` the loops terminate with `a - tau * ⌊a / tau⌋ ∈ [0, tau)`. -/
def floorModTau (q : ℚ) : ℚ := q - tau * ((⌊q / tau⌋ : ℤ) : ℚ)

/-- The result of the normalisation idiom
`while x > PI { x -= TAU }; while x < -PI { x += TAU }`
(used by `MotorCalibration::calculate_offset`). -/
def normToPi (x : ℚ) : ℚ :=
  if fpi < x then x - tau * ((⌈(x - fpi) / tau⌉ : ℤ) : ℚ)
  else if x < -fpi then x + tau * ((⌈(-fpi - x) / tau⌉ : ℤ) : ℚ)
  else x

/-! ## `src/foc/pi_controller.rs` — `PiController` -/

/-- State of `PiController` (`src/src/foc/pi_controller.rs`). -/
structure PiController where
  kp : ℚ
  ki : ℚ
  integral : ℚ
  output_min : ℚ
  output_max : ℚ
  last_output : ℚ
  anti_windup_enabled : Bool
  deriving Repr, DecidableEq

namespace PiController

/-- `PiController::new`. -/
def new (kp ki output_min output_max : ℚ) : PiController :=
  { kp := kp, ki := ki, integral := 0, output_min := output_min,
    output_max := output_max, last_output := 0, anti_windup_enabled := true }

/-- `PiController::new_symmetric`. -/
def new_symmetric (kp ki output_limit : ℚ) : PiController :=
  new kp ki (-output_limit) output_limit

/-- `PiController::update`: returns the updated state and the clamped output. -/
def update (s : PiController) (setpoint measured dt : ℚ) : PiController × ℚ :=
  let error := setpoint - measured
  let p_term := s.kp * error
  let should_integrate :=
    (!s.anti_windup_enabled) ||
      (decide (s.output_min < s.last_output) && decide (s.last_output < s.output_max))
  let integral := if should_integrate then s.integral + error * dt else s.integral
  let i_term := s.ki * integral
  let output := p_term + i_term
  let last_output := ratClamp output s.output_min s.output_max
  ({ s with integral := integral, last_output := last_output }, last_output)

/-- `PiController::reset`. -/
def reset (s : PiController) : PiController :=
  { s with integral := 0, last_output := 0 }

/-- `PiController::set_gains`. -/
def set_gains (s : PiController) (kp ki : ℚ) : PiController :=
  { s with kp := kp, ki := ki }

end PiController

/-! ## `src/firmware/src/foc/hall_sensor.rs` — lookup table and validity -/

/-- `HALL_STATE_TABLE`: maps a raw 3-bit Hall code to a normalised index
(255 marks an invalid code). -/
def HALL_STATE_TABLE : List ℕ := [255, 0, 2, 1, 4, 5, 3, 255]

/-- Array indexing `HALL_STATE_TABLE[s]`. -/
def hallLookup (s : ℕ) : ℕ := HALL_STATE_TABLE.getD s 255

/-- `HallSensor::is_valid_state`: `(1..=6).contains(&state)`. -/
def is_valid_state (state : ℕ) : Bool := decide (1 ≤ state) && decide (state ≤ 6)

/-! ## `src/firmware/src/foc/transforms.rs` -/

/-- `inverse_clarke` with its source constant `SQRT3_DIV_2 = 0.866_025_4`. -/
def SQRT3_DIV_2 : ℚ := 8660254 / 10000000

/-- `inverse_clarke(v_alpha, v_beta) -> (v_u, v_v, v_w)`. -/
def inverse_clarke (v_alpha v_beta : ℚ) : ℚ × ℚ × ℚ :=
  let v_u := v_alpha
  let v_v := -(1/2) * v_alpha + SQRT3_DIV_2 * v_beta
  let v_w := -(1/2) * v_alpha - SQRT3_DIV_2 * v_beta
  (v_u, v_v, v_w)

/-- `inverse_park`, with the composite `idsp::cossin`-based (cos, sin)
approximation abstracted as the oracle `trig`. -/
def inverse_park (trig : ℚ → ℚ × ℚ) (vd vq theta : ℚ) : ℚ × ℚ :=
  let cs := trig theta
  (vd * cs.1 - vq * cs.2, vd * cs.2 + vq * cs.1)

/-- `limit_voltage`, with `libm::sqrtf` abstracted as the oracle `sqrtf`. -/
def limit_voltage (sqrtf : ℚ → ℚ) (vd vq max_voltage : ℚ) : ℚ × ℚ :=
  let magnitude := sqrtf (vd * vd + vq * vq)
  if magnitude > max_voltage then
    let scale := max_voltage / magnitude
    (vd * scale, vq * scale)
  else (vd, vq)

/-! ## `src/firmware/src/foc/svpwm.rs` — `calculate_svpwm` -/

/-- The source constant `SQRT3 = 1.732_050_8`. -/
def SQRT3 : ℚ := 17320508 / 10000000

/-- Final duty conversion: `roundf((t + 1.0) / 2.0 * max_duty).clamp(0.0, max_duty) as u16`. -/
def dutyOf (t : ℚ) (max_duty : ℕ) : ℕ :=
  (ratTrunc (ratClamp (roundf ((t + 1) / 2 * (max_duty : ℚ))) 0 (max_duty : ℚ))).toNat

/-- `calculate_svpwm(v_alpha, v_beta, v_dc, max_duty)`. -/
def calculate_svpwm (v_alpha v_beta v_dc : ℚ) (max_duty : ℕ) : ℕ × ℕ × ℕ :=
  if v_dc ≤ 0 then (max_duty / 2, max_duty / 2, max_duty / 2)
  else
    let v_alpha_norm := v_alpha / v_dc
    let v_beta_norm := v_beta / v_dc
    let sqrt_3_alpha := SQRT3 * v_alpha_norm
    let x := v_beta_norm
    let y := (v_beta_norm + sqrt_3_alpha) / 2
    let z := (v_beta_norm - sqrt_3_alpha) / 2
    let sector : ℕ :=
      match decide (x ≥ 0), decide (y ≥ 0), decide (z ≥ 0) with
      | true, true, false => 1
      | _, true, true => 2
      | true, false, true => 3
      | false, false, true => 4
      | _, false, false => 5
      | false, true, false => 6
    let tatbtc : ℚ × ℚ × ℚ :=
      match sector with
      | 1 | 4 => (x - z, x + z, -x + z)
      | 2 | 5 => (y - z, y + z, -y - z)
      | 3 | 6 => (y - x, -y + x, -y - x)
      | _ => (0, 0, 0)
    (dutyOf tatbtc.1 max_duty, dutyOf tatbtc.2.1 max_duty, dutyOf tatbtc.2.2 max_duty)

/-! ## `src/firmware/src/hall_tim.rs` — values consumed by the estimator -/

/-- Inputs the Hall-sensor estimator reads from the TIM4 capture module
(`hall_tim::get_hall_state`, `hall_tim::is_timeout`,
`hall_tim::get_period_cycles`). -/
structure HallEnv where
  hall_state : ℕ
  timeout : Bool
  period_cycles : ℕ
  deriving Repr, DecidableEq

/-- `hall_tim::calculate_speed_rpm(period_cycles, pole_pairs)`. -/
def calculate_speed_rpm (period_cycles : ℕ) (pole_pairs : ℕ) : ℚ :=
  if period_cycles = 0 then 0
  else
    let freq_hz := (170000000 : ℚ) / (period_cycles : ℚ)
    let elec_rpm := freq_hz * 60 / 6
    elec_rpm / (pole_pairs : ℚ)

/-! ## `src/firmware/src/foc/hall_sensor.rs` — `HallSensor` -/

/-- State of `HallSensor`. -/
structure HallSensor where
  prev_state : ℕ
  mechanical_angle : ℚ
  hall_idx_base : ℕ
  hall_idx_max : ℕ
  angle_per_state : ℚ
  speed_rpm : ℚ
  time_since_edge : ℚ
  speed_filter_alpha : ℚ
  pole_pairs : ℕ
  enable_interpolation : Bool
  electrical_offset : ℚ
  deriving Repr, DecidableEq

namespace HallSensor

/-- `HallSensor::new(pole_pairs, speed_filter_alpha)`. -/
def new (pole_pairs : ℕ) (speed_filter_alpha : ℚ) : HallSensor :=
  let hall_idx_max := pole_pairs * 6
  { prev_state := 255
    mechanical_angle := 0
    hall_idx_base := 0
    hall_idx_max := hall_idx_max
    angle_per_state := tau / (hall_idx_max : ℚ)
    speed_rpm := 0
    time_since_edge := 0
    speed_filter_alpha := ratClamp speed_filter_alpha 0 1
    pole_pairs := pole_pairs
    enable_interpolation := true
    electrical_offset := 0 }

/-- `HallSensor::update(dt)`: reads the capture environment, returns the new
state together with `(electrical_angle, speed_rpm)`. -/
def update (s : HallSensor) (env : HallEnv) (dt : ℚ) : HallSensor × (ℚ × ℚ) :=
  let raw_hall_state := env.hall_state
  if ¬ (is_valid_state raw_hall_state = true) then
    -- invalid raw code: hold the angle; speed handling depends on the timeout flag
    let s' :=
      if env.timeout then { s with speed_rpm := 0, time_since_edge := 0 }
      else { s with time_since_edge := s.time_since_edge + dt }
    let electrical_angle :=
      s'.mechanical_angle * (s'.pole_pairs : ℚ) - s'.electrical_offset
    (s', (electrical_angle, s'.speed_rpm))
  else
    let normalized_state := hallLookup raw_hall_state
    if normalized_state = 255 then
      -- unreachable safety check kept from the source
      (s, (s.mechanical_angle * (s.pole_pairs : ℚ) - s.electrical_offset, s.speed_rpm))
    else
      let period_cycles := env.period_cycles
      if env.timeout ∨ period_cycles = 0 then
        let hall_state_idx := s.hall_idx_base + normalized_state
        let mech := floorModTau ((hall_state_idx : ℚ) * s.angle_per_state)
        let s' := { s with speed_rpm := 0, time_since_edge := 0, mechanical_angle := mech }
        let electrical_angle := mech * (s.pole_pairs : ℚ) - s.electrical_offset
        (s', (electrical_angle, s'.speed_rpm))
      else
        let instant_rpm := calculate_speed_rpm period_cycles s.pole_pairs
        let state_changed := normalized_state ≠ s.prev_state ∧ s.prev_state ≠ 255
        let s₁ : HallSensor :=
          if state_changed then
            let base :=
              if normalized_state = 0 ∧ s.prev_state = 5 then
                let b := s.hall_idx_base + 6
                if b ≥ s.hall_idx_max then 0 else b
              else if normalized_state = 5 ∧ s.prev_state = 0 then
                if s.hall_idx_base < 6 then s.hall_idx_max - 6 else s.hall_idx_base - 6
              else s.hall_idx_base
            { s with hall_idx_base := base
                     speed_rpm := s.speed_filter_alpha * instant_rpm
                       + (1 - s.speed_filter_alpha) * s.speed_rpm
                     time_since_edge := 0
                     prev_state := normalized_state }
          else
            { s with time_since_edge := s.time_since_edge + dt
                     speed_rpm := s.speed_filter_alpha * instant_rpm
                       + (1 - s.speed_filter_alpha) * s.speed_rpm }
        let hall_state_idx := s₁.hall_idx_base + normalized_state
        let base_mechanical_angle := (hall_state_idx : ℚ) * s₁.angle_per_state
        let mech :=
          if s₁.enable_interpolation ∧ |s₁.speed_rpm| > 1 then
            let mechanical_omega := s₁.speed_rpm * (tau / 60)
            base_mechanical_angle + mechanical_omega * s₁.time_since_edge
          else base_mechanical_angle
        let mech' := floorModTau mech
        let s₂ := { s₁ with mechanical_angle := mech' }
        let electrical_angle := mech' * (s₂.pole_pairs : ℚ) - s₂.electrical_offset
        (s₂, (electrical_angle, s₂.speed_rpm))

/-- `HallSensor::get_mechanical_angle`. -/
def get_mechanical_angle (s : HallSensor) : ℚ := s.mechanical_angle

/-- `HallSensor::reset`. -/
def reset (s : HallSensor) : HallSensor :=
  { s with prev_state := 255, mechanical_angle := 0, hall_idx_base := 0,
           speed_rpm := 0, time_since_edge := 0 }

/-- `HallSensor::reset_speed_filter(new_speed)`. -/
def reset_speed_filter (s : HallSensor) (new_speed : ℚ) : HallSensor :=
  { s with speed_rpm := new_speed, time_since_edge := 0 }

/-- `HallSensor::set_electrical_offset(offset_rad)`. -/
def set_electrical_offset (s : HallSensor) (offset_rad : ℚ) : HallSensor :=
  { s with electrical_offset := offset_rad }

end HallSensor

/-! ## `src/firmware/src/foc/shaft_position.rs` — `ShaftPosition` -/

/-- State of `ShaftPosition`. -/
structure ShaftPosition where
  angle : ℚ
  rotations : ℤ
  inversed : Bool
  prev_angle : ℚ
  deriving Repr, DecidableEq

namespace ShaftPosition

/-- `ShaftPosition::new`. -/
def new : ShaftPosition :=
  { angle := 0, rotations := 0, inversed := false, prev_angle := 0 }

/-- `ShaftPosition::clamp(angle)`: `angle % TAU` (Rust float remainder,
truncated division) shifted into `[0, TAU)`. -/
def clamp (angle : ℚ) : ℚ :=
  let normalized := angle - tau * ((ratTrunc (angle / tau) : ℤ) : ℚ)
  if normalized < 0 then normalized + tau else normalized

/-- `ShaftPosition::reset`. -/
def reset (s : ShaftPosition) : ShaftPosition :=
  { s with angle := 0, rotations := 0, prev_angle := 0 }

/-- `ShaftPosition::set_inversed`. -/
def set_inversed (s : ShaftPosition) (inversed : Bool) : ShaftPosition :=
  { s with inversed := inversed }

/-- `ShaftPosition::update_shaft_angle(sensor_angle)`. -/
def update_shaft_angle (s : ShaftPosition) (sensor_angle : ℚ) : ShaftPosition :=
  let a₁ := if s.inversed then tau - sensor_angle else sensor_angle
  let a₂ := clamp a₁
  let delta := a₂ - s.prev_angle
  let rotations :=
    if delta < -tau / 2 then s.rotations + 1
    else if delta > tau / 2 then s.rotations - 1
    else s.rotations
  { s with rotations := rotations, prev_angle := a₂, angle := a₂ }

/-- `ShaftPosition::increment(delta_angle)`: the two wrap-around `while`
loops add `⌊(angle + delta) / tau⌋` to `rotations` and leave the angle in
`[0, tau)`. -/
def increment (s : ShaftPosition) (delta_angle : ℚ) : ShaftPosition :=
  let new_angle := s.angle + delta_angle
  let k : ℤ := ⌊new_angle / tau⌋
  let wrapped := new_angle - tau * (k : ℚ)
  { s with rotations := s.rotations + k, angle := wrapped, prev_angle := wrapped }

/-- `ShaftPosition::get_angle`. -/
def get_angle (s : ShaftPosition) : ℚ := s.angle

/-- `ShaftPosition::get_position`: `rotations * TAU + angle`. -/
def get_position (s : ShaftPosition) : ℚ := (s.rotations : ℚ) * tau + s.angle

end ShaftPosition

/-! ## `src/firmware/src/foc/openloop_six_step.rs` — `OpenLoopSixStep` -/

/-- One commutation pattern (`SixStepState`). -/
structure SixStepState where
  step : ℕ
  duty_u : ℕ
  duty_v : ℕ
  duty_w : ℕ
  enable_u : Bool
  enable_v : Bool
  enable_w : Bool
  deriving Repr, DecidableEq

/-- State of `OpenLoopSixStep`. -/
structure OpenLoopSixStep where
  current_step : ℕ
  step_period : ℚ
  initial_step_period : ℚ
  acceleration_rate : ℚ
  min_step_period : ℚ
  elapsed_time : ℚ
  duty_ratio : ℕ
  pole_pairs : ℕ
  deriving Repr, DecidableEq

namespace OpenLoopSixStep

/-- `OpenLoopSixStep::new(initial_rpm, target_rpm, acceleration_rpm_per_s, duty_ratio, pole_pairs)`. -/
def new (initial_rpm target_rpm acceleration_rpm_per_s : ℚ)
    (duty_ratio : ℕ) (pole_pairs : ℕ) : OpenLoopSixStep :=
  let steps_per_rotation : ℚ := 6 * (pole_pairs : ℚ)
  let initial_step_period := 60 / (initial_rpm * steps_per_rotation)
  let min_step_period := 60 / (target_rpm * steps_per_rotation)
  let acceleration_rate :=
    if acceleration_rpm_per_s > 0 then
      1 - acceleration_rpm_per_s * initial_step_period / initial_rpm
    else (98 : ℚ) / 100
  { current_step := 0
    step_period := initial_step_period
    initial_step_period := initial_step_period
    acceleration_rate := acceleration_rate
    min_step_period := min_step_period
    elapsed_time := 0
    duty_ratio := duty_ratio
    pole_pairs := pole_pairs }

/-- `OpenLoopSixStep::get_step_state(step, duty)`. -/
def get_step_state (step : ℕ) (duty : ℕ) : SixStepState :=
  match step % 6 with
  | 0 => { step := step, duty_u := duty, duty_v := 0, duty_w := 0,
           enable_u := true, enable_v := true, enable_w := false }
  | 1 => { step := step, duty_u := duty, duty_v := 0, duty_w := 0,
           enable_u := true, enable_v := false, enable_w := true }
  | 2 => { step := step, duty_u := 0, duty_v := duty, duty_w := 0,
           enable_u := false, enable_v := true, enable_w := true }
  | 3 => { step := step, duty_u := 0, duty_v := duty, duty_w := 0,
           enable_u := true, enable_v := true, enable_w := false }
  | 4 => { step := step, duty_u := 0, duty_v := 0, duty_w := duty,
           enable_u := true, enable_v := false, enable_w := true }
  | _ => { step := step, duty_u := 0, duty_v := 0, duty_w := duty,
           enable_u := false, enable_v := true, enable_w := true }

/-- `OpenLoopSixStep::update(dt)`. -/
def update (s : OpenLoopSixStep) (dt : ℚ) : OpenLoopSixStep × SixStepState :=
  let elapsed := s.elapsed_time + dt
  let s' : OpenLoopSixStep :=
    if elapsed ≥ s.step_period then
      let step := (s.current_step + 1) % 6
      let period :=
        if s.step_period > s.min_step_period then
          let p := s.step_period * s.acceleration_rate
          if p < s.min_step_period then s.min_step_period else p
        else s.step_period
      { s with elapsed_time := 0, current_step := step, step_period := period }
    else { s with elapsed_time := elapsed }
  (s', get_step_state s'.current_step s'.duty_ratio)

/-- `OpenLoopSixStep::is_target_reached`. -/
def is_target_reached (s : OpenLoopSixStep) : Bool :=
  decide (s.step_period ≤ s.min_step_period)

/-- `OpenLoopSixStep::reset`. -/
def reset (s : OpenLoopSixStep) : OpenLoopSixStep :=
  { s with current_step := 0, step_period := s.initial_step_period, elapsed_time := 0 }

/-- `OpenLoopSixStep::get_current_rpm`. -/
def get_current_rpm (s : OpenLoopSixStep) : ℚ :=
  60 / (s.step_period * (6 * (s.pole_pairs : ℚ)))

/-- Folding `update` over a list of time steps. -/
def applyUpdates (s : OpenLoopSixStep) (dts : List ℚ) : OpenLoopSixStep :=
  dts.foldl (fun s dt => (s.update dt).1) s

end OpenLoopSixStep

/-! ## `src/firmware/src/foc/calibration.rs` — `MotorCalibration` -/

/-- `CalibrationState`. -/
inductive CalibrationState where
  | Init
  | FindDirection
  | MeasureSectors
  | ReturnToStart
  | Completed
  deriving Repr, DecidableEq

/-- `CalibrationResult`. -/
structure CalibrationResult where
  electrical_offset : ℚ
  direction_inversed : Bool
  success : Bool
  deriving Repr, DecidableEq

/-- `CalibrationResult::new` (failure state). -/
def CalibrationResult.new : CalibrationResult :=
  { electrical_offset := 0, direction_inversed := false, success := false }

/-- State of `MotorCalibration`. -/
structure MotorCalibration where
  state : CalibrationState
  pole_pairs : ℕ
  torque : ℚ
  shaft_position_req : ShaftPosition
  shaft_position_act : ShaftPosition
  result : CalibrationResult
  sector_angles : List (Option ℚ)
  prev_hall_sector : ℕ
  sector_wait_counter : ℕ
  deriving Repr, DecidableEq

namespace MotorCalibration

/-- `MotorCalibration::new(pole_pairs, torque)`. -/
def new (pole_pairs : ℕ) (torque : ℚ) : MotorCalibration :=
  { state := .Init
    pole_pairs := pole_pairs
    torque := ratClamp torque (1/10) (1/2)
    shaft_position_req := ShaftPosition.new
    shaft_position_act := ShaftPosition.new
    result := CalibrationResult.new
    sector_angles := List.replicate 7 none
    prev_hall_sector := 0
    sector_wait_counter := 0 }

/-- `MotorCalibration::start`. -/
def start (c : MotorCalibration) : MotorCalibration :=
  { c with state := .Init
           shaft_position_req := c.shaft_position_req.reset
           shaft_position_act := c.shaft_position_act.reset
           result := CalibrationResult.new
           sector_angles := List.replicate 7 none
           prev_hall_sector := 0
           sector_wait_counter := 0 }

/-- `MotorCalibration::is_completed`. -/
def is_completed (c : MotorCalibration) : Bool := decide (c.state = .Completed)

/-- `MotorCalibration::get_result`. -/
def get_result (c : MotorCalibration) : CalibrationResult := c.result

/-- Expected mechanical sector centers (`EXPECTED_ANGLES`, index 0 unused). -/
def EXPECTED_ANGLES : List ℚ :=
  [0, 0, fpi / 3, 2 * fpi / 3, fpi, 4 * fpi / 3, 5 * fpi / 3]

/-- `MotorCalibration::calculate_offset`: per-sector offsets
`measured·pp − expected·pp`, each normalised to `(−π, π]`, averaged, the mean
normalised to `[0, 2π)`. -/
def calculate_offset (c : MotorCalibration) : MotorCalibration :=
  let step := fun (acc : ℚ × ℕ) (sector : ℕ) =>
    match c.sector_angles.getD sector none with
    | some measured_angle =>
        let measured_electrical := measured_angle * (c.pole_pairs : ℚ)
        let expected_electrical := EXPECTED_ANGLES.getD sector 0 * (c.pole_pairs : ℚ)
        let offset := normToPi (measured_electrical - expected_electrical)
        (acc.1 + offset, acc.2 + 1)
    | none => acc
  let sums := [1, 2, 3, 4, 5, 6].foldl step ((0 : ℚ), (0 : ℕ))
  if sums.2 > 0 then
    { c with result := { c.result with
        electrical_offset := ShaftPosition.clamp (sums.1 / (sums.2 : ℚ)) } }
  else
    { c with result := { c.result with electrical_offset := 0 } }

/-- `MotorCalibration::update(sensor_angle)`; the Hall code read inside the
`MeasureSectors` arm (`hall_tim::get_hall_state`) is the `hall` argument.
Returns the new session state and `Ok((electrical_angle, torque))` or `Err(())`. -/
def update (c : MotorCalibration) (sensor_angle : ℚ) (hall : ℕ) :
    MotorCalibration × Except Unit (ℚ × ℚ) :=
  let c := { c with shaft_position_act := c.shaft_position_act.update_shaft_angle sensor_angle }
  match c.state with
  | .Init =>
      let c := { c with
        shaft_position_req := c.shaft_position_req.reset
        shaft_position_act := c.shaft_position_act.reset
        result := { c.result with electrical_offset := 0 }
        sector_angles := List.replicate 7 none
        prev_hall_sector := 0
        sector_wait_counter := 0
        state := .FindDirection }
      (c, .ok (0, 0))
  | .FindDirection =>
      if c.shaft_position_req.rotations ≥ 1 then
        if c.shaft_position_act.rotations = 0 ∧ c.shaft_position_act.angle < 1/10 then
          ({ c with state := .Completed, result := { c.result with success := false } },
           .error ())
        else
          let actual_position := c.shaft_position_act.get_position
          let c :=
            if actual_position < 0 then
              { c with shaft_position_act := c.shaft_position_act.set_inversed true
                       result := { c.result with direction_inversed := true } }
            else
              { c with shaft_position_act := c.shaft_position_act.set_inversed false
                       result := { c.result with direction_inversed := false } }
          let c := { c with state := .MeasureSectors }
          let electrical_angle := c.shaft_position_req.get_angle * (c.pole_pairs : ℚ)
          (c, .ok (electrical_angle, c.torque))
      else
        let c := { c with shaft_position_req := c.shaft_position_req.increment (2/1000) }
        let electrical_angle := c.shaft_position_req.get_angle * (c.pole_pairs : ℚ)
        (c, .ok (electrical_angle, c.torque))
  | .MeasureSectors =>
      let current_hall := hall
      let c :=
        if 1 ≤ current_hall ∧ current_hall ≤ 6 then
          let c :=
            if current_hall ≠ c.prev_hall_sector then
              { c with prev_hall_sector := current_hall, sector_wait_counter := 0 }
            else c
          if c.sector_wait_counter < 25 then
            { c with sector_wait_counter := c.sector_wait_counter + 1 }
          else if (c.sector_angles.getD current_hall none).isNone then
            let angle := c.shaft_position_act.get_angle
            let c := { c with sector_angles := c.sector_angles.set current_hall (some angle) }
            let all_recorded :=
              [1, 2, 3, 4, 5, 6].all fun i => (c.sector_angles.getD i none).isSome
            if all_recorded then
              let c := c.calculate_offset
              { c with state := .ReturnToStart }
            else c
          else c
        else c
      let c := { c with shaft_position_req := c.shaft_position_req.increment (2/1000) }
      let electrical_angle := c.shaft_position_req.get_angle * (c.pole_pairs : ℚ)
      (c, .ok (electrical_angle, c.torque))
  | .ReturnToStart =>
      if c.shaft_position_req.rotations = 0 ∧ c.shaft_position_req.angle < tau / 4 then
        ({ c with state := .Completed, result := { c.result with success := true } },
         .ok (0, 0))
      else
        let c := { c with shaft_position_req := c.shaft_position_req.increment (-(4/1000)) }
        let electrical_angle := c.shaft_position_req.get_angle * (c.pole_pairs : ℚ)
        (c, .ok (electrical_angle, c.torque))
  | .Completed => (c, .ok (0, 0))

end MotorCalibration

/-! ## `src/firmware/src/config/params.rs` — constants used by the control task -/

def DEFAULT_MAX_VOLTAGE : ℚ := 24
def DEFAULT_V_DC_BUS : ℚ := 24
def DEFAULT_MAX_DUTY : ℕ := 100
def MIN_VOLTAGE : ℚ := 5
def MIN_VOLTAGE_ERROR_THRESHOLD : ℚ := 10
def MAX_SPEED_ACCELERATION : ℚ := 200

/-! ## `src/firmware/src/tasks/motor_control.rs` — one iteration of the
2.5 kHz control loop (`motor_control_task`), for an enabled motor with no
pending calibration request. -/

/-- `ControlMode`. -/
inductive ControlMode where
  | OpenLoop
  | ClosedLoopFoc
  | Calibration
  deriving Repr, DecidableEq

/-- The task-local mutable state of `motor_control_task`. -/
structure MotorState where
  hall : HallSensor
  speed_pi : PiController
  openloop : OpenLoopSixStep
  calibration : MotorCalibration
  mode : ControlMode
  ramped_target_speed : ℚ
  deriving Repr, DecidableEq

/-- Shared state read during one tick: the Hall capture fields plus the
command-link values (`TARGET_SPEED`, `SPEED_PI_GAINS`). -/
structure TickEnv where
  hall_state : ℕ
  timeout : Bool
  period_cycles : ℕ
  target_speed : ℚ
  kp : ℚ
  ki : ℚ
  deriving Repr, DecidableEq

/-- The three PWM duty values written to TIM1 during the tick. -/
structure PwmOut where
  duty_u : ℕ
  duty_v : ℕ
  duty_w : ℕ
  deriving Repr, DecidableEq

/-- One iteration of the `motor_control_task` loop body with the motor
enabled and no calibration request pending.  `trig` abstracts the
`idsp::cossin`-based (cos, sin) evaluation inside `inverse_park` and `sqrtf`
abstracts `libm::sqrtf` inside `limit_voltage`. -/
def tick (trig : ℚ → ℚ × ℚ) (sqrtf : ℚ → ℚ) (env : TickEnv) (dt : ℚ)
    (s : MotorState) : MotorState × PwmOut :=
  let is_valid_hall := 1 ≤ env.hall_state ∧ env.hall_state ≤ 6
  let hallEnv : HallEnv :=
    { hall_state := env.hall_state, timeout := env.timeout,
      period_cycles := env.period_cycles }
  let hu := s.hall.update hallEnv dt
  let hall₁ := hu.1
  let hall_electrical_angle := hu.2.1
  let speed_rpm := hu.2.2
  -- OpenLoop → ClosedLoopFoc switch check
  let switch := s.mode = .OpenLoop ∧ is_valid_hall ∧ s.openloop.is_target_reached = true
  let mode₁ : ControlMode := if switch then .ClosedLoopFoc else s.mode
  let hall₂ : HallSensor :=
    if switch then hall₁.reset_speed_filter s.openloop.get_current_rpm else hall₁
  let ramped₁ : ℚ := if switch then s.openloop.get_current_rpm else s.ramped_target_speed
  match mode₁ with
  | .OpenLoop =>
      let ou := s.openloop.update dt
      ({ s with hall := hall₂, openloop := ou.1, mode := mode₁,
                ramped_target_speed := ramped₁ },
       { duty_u := ou.2.duty_u, duty_v := ou.2.duty_v, duty_w := ou.2.duty_w })
  | .ClosedLoopFoc =>
      if ¬ is_valid_hall then
        -- safety path: zero the duties, reset the PI controller, zero the
        -- speed ramp, and skip the rest of the tick
        ({ s with hall := hall₂, speed_pi := s.speed_pi.reset, mode := mode₁,
                  ramped_target_speed := 0 },
         { duty_u := 0, duty_v := 0, duty_w := 0 })
      else
        let pi₁ :=
          if env.kp ≠ s.speed_pi.kp ∨ env.ki ≠ s.speed_pi.ki then
            s.speed_pi.set_gains env.kp env.ki
          else s.speed_pi
        let speed_error := env.target_speed - ramped₁
        let max_delta_speed := MAX_SPEED_ACCELERATION * dt
        let ramped₂ :=
          if |speed_error| > max_delta_speed then
            if speed_error > 0 then ramped₁ + max_delta_speed
            else ramped₁ - max_delta_speed
          else env.target_speed
        let pu := pi₁.update ramped₂ speed_rpm dt
        let stopping := |ramped₂| < 1 ∧ |speed_rpm| < 1
        let pi₂ := if stopping then pu.1.reset else pu.1
        let vq₁ : ℚ := if stopping then 0 else pu.2
        let speed_error_abs := |ramped₂ - speed_rpm|
        let vq₂ :=
          if speed_error_abs > MIN_VOLTAGE_ERROR_THRESHOLD ∧ |vq₁| > 0 then
            if vq₁ > 0 then max vq₁ MIN_VOLTAGE else min vq₁ (-MIN_VOLTAGE)
          else vq₁
        let vl := limit_voltage sqrtf 0 vq₂ DEFAULT_MAX_VOLTAGE
        let ab := inverse_park trig vl.1 vl.2 hall_electrical_angle
        let duties := calculate_svpwm ab.1 ab.2 DEFAULT_V_DC_BUS DEFAULT_MAX_DUTY
        ({ s with hall := hall₂, speed_pi := pi₂, mode := mode₁,
                  ramped_target_speed := ramped₂ },
         { duty_u := duties.1, duty_v := duties.2.1, duty_w := duties.2.2 })
  | .Calibration =>
      let sensor_angle := hall₂.get_mechanical_angle
      let cu := s.calibration.update sensor_angle env.hall_state
      match cu.2 with
      | .ok res =>
          let v_cmd := res.2 * DEFAULT_MAX_VOLTAGE
          let ab := inverse_park trig 0 v_cmd res.1
          let duties := calculate_svpwm ab.1 ab.2 DEFAULT_V_DC_BUS DEFAULT_MAX_DUTY
          if cu.1.is_completed then
            if cu.1.get_result.success then
              ({ s with hall := hall₂.set_electrical_offset cu.1.result.electrical_offset,
                        calibration := cu.1, mode := .ClosedLoopFoc,
                        ramped_target_speed := ramped₁ },
               { duty_u := duties.1, duty_v := duties.2.1, duty_w := duties.2.2 })
            else
              ({ s with hall := hall₂, calibration := cu.1, mode := .OpenLoop,
                        ramped_target_speed := ramped₁ },
               { duty_u := 0, duty_v := 0, duty_w := 0 })
          else
            ({ s with hall := hall₂, calibration := cu.1, mode := mode₁,
                      ramped_target_speed := ramped₁ },
             { duty_u := duties.1, duty_v := duties.2.1, duty_w := duties.2.2 })
      | .error _ =>
          ({ s with hall := hall₂, calibration := cu.1, mode := .OpenLoop,
                    ramped_target_speed := ramped₁ },
           { duty_u := 0, duty_v := 0, duty_w := 0 })

/-! ## Claim theorems -/

/-- C3: on raw codes 1..6 the Hall lookup table is the stated bijection onto
indices 0..5 (1→0, 2→2, 3→1, 4→4, 5→5, 6→3), and `is_valid_state` accepts
exactly the codes 1..6, rejecting 0 and 7. -/
theorem C3_hall_table_bijection_and_validity :
    (hallLookup 1 = 0 ∧ hallLookup 2 = 2 ∧ hallLookup 3 = 1 ∧ hallLookup 4 = 4 ∧
      hallLookup 5 = 5 ∧ hallLookup 6 = 3)
    ∧ (∀ a ∈ Finset.Icc 1 6, hallLookup a ∈ Finset.range 6)
    ∧ (∀ a ∈ Finset.Icc 1 6, ∀ b ∈ Finset.Icc 1 6, hallLookup a = hallLookup b → a = b)
    ∧ (∀ i ∈ Finset.range 6, ∃ a ∈ Finset.Icc 1 6, hallLookup a = i)
    ∧ (∀ s : ℕ, is_valid_state s = true ↔ 1 ≤ s ∧ s ≤ 6)
    ∧ is_valid_state 0 = false ∧ is_valid_state 7 = false := by
  refine ⟨by decide, by decide, by decide, by decide, ?_, by decide, by decide⟩
  intro s
  simp [is_valid_state]

/-- C3 witness: the bijectivity statements applied at the concrete code 6 and
index 3. -/
theorem C3_hall_table_witness : hallLookup 6 ∈ Finset.range 6 ∧ is_valid_state 7 = false :=
  ⟨C3_hall_table_bijection_and_validity.2.1 6 (by decide),
   C3_hall_table_bijection_and_validity.2.2.2.2.2.2⟩

/-- C2: `PiController::update` computes `error = setpoint − measured`,
accumulates `error·dt` into the integral exactly when the previous output was
strictly inside `(output_min, output_max)` (with anti-windup enabled, as every
controller constructed by `new`/`new_symmetric` is), returns
`clamp(kp·error + ki·integral, output_min, output_max)` and stores it as
`last_output`; and the two numeric examples from the spec hold. -/
theorem C2_pi_update_characterization (s : PiController) (setpoint measured dt : ℚ)
    (hw : s.anti_windup_enabled = true) :
    (s.update setpoint measured dt =
      (let error := setpoint - measured
       let integral' :=
         if s.output_min < s.last_output ∧ s.last_output < s.output_max then
           s.integral + error * dt
         else s.integral
       let out := ratClamp (s.kp * error + s.ki * integral') s.output_min s.output_max
       ({ s with integral := integral', last_output := out }, out)))
    ∧ ((PiController.new 1 0 (-10) 10).update 20 0 (1/10)).2 = 10
    ∧ ((PiController.new 0 1 (-100) 100).update 10 0 (1/10)).1.integral = 1
    ∧ ((((PiController.new 0 1 (-100) 100).update 10 0 (1/10)).1).update 10 0 (1/10)).1.integral = 2 := by
  refine ⟨?_, ?_, ?_, ?_⟩
  · simp [PiController.update, hw, Bool.and_eq_true, decide_eq_true_eq]
  · norm_num [PiController.update, PiController.new, ratClamp]
  · norm_num [PiController.update, PiController.new, ratClamp]
  · norm_num [PiController.update, PiController.new, ratClamp]

/-- C2 witness: the characterization applied to the controller
`new(1, 0, −10, 10)` (anti-windup enabled by construction) on the saturating
example call. -/
theorem C2_pi_update_witness :
    ((PiController.new 1 0 (-10) 10).update 20 0 (1/10)).2 = 10 :=
  (C2_pi_update_characterization (PiController.new 1 0 (-10) 10) 20 0 (1/10) rfl).2.1

/-- C8: the three outputs of `inverse_clarke` always sum to exactly 0, and
`inverse_clarke(1, 0) = (1, −1/2, −1/2)`. -/
theorem C8_inverse_clarke_balanced :
    (∀ v_alpha v_beta : ℚ,
      (inverse_clarke v_alpha v_beta).1 + (inverse_clarke v_alpha v_beta).2.1 +
        (inverse_clarke v_alpha v_beta).2.2 = 0)
    ∧ inverse_clarke 1 0 = (1, -(1/2), -(1/2)) := by
  constructor
  · intro va vb
    simp [inverse_clarke]
    ring
  · norm_num [inverse_clarke, SQRT3_DIV_2]

/-- C7: with `v_dc ≤ 0`, `calculate_svpwm` returns the centered safe duty
`max_duty / 2` (`u16` halving) on all three phases, for every input; and
`calculate_svpwm(0, 0, 12, 100)` yields three duties strictly between 40
and 60 (in fact exactly 50). -/
theorem C7_svpwm_safe_center :
    (∀ (v_alpha v_beta v_dc : ℚ) (max_duty : ℕ), v_dc ≤ 0 →
      calculate_svpwm v_alpha v_beta v_dc max_duty = (max_duty / 2, max_duty / 2, max_duty / 2))
    ∧ ((calculate_svpwm 0 0 12 100).1 > 40 ∧ (calculate_svpwm 0 0 12 100).1 < 60
       ∧ (calculate_svpwm 0 0 12 100).2.1 > 40 ∧ (calculate_svpwm 0 0 12 100).2.1 < 60
       ∧ (calculate_svpwm 0 0 12 100).2.2 > 40 ∧ (calculate_svpwm 0 0 12 100).2.2 < 60) := by
  constructor
  · intro va vb vdc md h
    simp [calculate_svpwm, h]
  · have h : calculate_svpwm 0 0 12 100 = (50, 50, 50) := by
      norm_num [calculate_svpwm, SQRT3, dutyOf, roundf, ratClamp, ratTrunc]
      rfl
    rw [h]
    refine ⟨by norm_num, by norm_num, by norm_num, by norm_num, by norm_num, by norm_num⟩

/-- C7 witness: the safe-default branch applied at `v_dc = −3`, `max_duty = 7`. -/
theorem C7_svpwm_witness : calculate_svpwm 1 2 (-3) 7 = (3, 3, 3) :=
  C7_svpwm_safe_center.1 1 2 (-3) 7 (by norm_num)

/-- C9: evaluation of the spec's `ShaftPosition` test sequence
`update_shaft_angle(1.0), (2.0), (6.0), (0.5)` on the embedded code.  The
spec (and the repository's own unit test `test_update_forward`) expect a
final rotation count of 1, but the code yields 0: the 2.0 → 6.0 jump of
+4.0 rad exceeds `TAU/2` and is classified as a backward boundary crossing
(`rotations -= 1`), which the 6.0 → 0.5 forward crossing then merely undoes. -/
theorem C9_shaft_sequence_rotations :
    ((((ShaftPosition.new.update_shaft_angle 1).update_shaft_angle 2).update_shaft_angle
        6).update_shaft_angle (1/2)).rotations = 0
    ∧ ¬ ((((ShaftPosition.new.update_shaft_angle 1).update_shaft_angle 2).update_shaft_angle
        6).update_shaft_angle (1/2)).rotations = 1 := by
  have h : ((((ShaftPosition.new.update_shaft_angle 1).update_shaft_angle 2).update_shaft_angle
      6).update_shaft_angle (1/2)).rotations = 0 := by
    norm_num [ShaftPosition.update_shaft_angle, ShaftPosition.new, ShaftPosition.clamp,
      ratTrunc, tau]
  exact ⟨h, by rw [h]; decide⟩

/-- C10 counterexample: `HallSensor::reset` does not restore the
calibration-derived electrical offset to its initial value — after
`set_electrical_offset(1)` followed by `reset()`, the offset is still 1,
while a freshly constructed sensor has offset 0. -/
theorem C10_reset_offset_counterexample :
    (((HallSensor.new 6 (1/20)).set_electrical_offset 1).reset).electrical_offset = 1
    ∧ (HallSensor.new 6 (1/20)).electrical_offset = 0
    ∧ ¬ ((HallSensor.new 6 (1/20)).set_electrical_offset 1).reset = HallSensor.new 6 (1/20) := by
  refine ⟨rfl, rfl, fun h => ?_⟩
  have h2 := congrArg HallSensor.electrical_offset h
  simp [HallSensor.reset, HallSensor.set_electrical_offset, HallSensor.new] at h2

/-- C10 amended: `reset()` restores exactly the estimator's dynamic state
(previous Hall state, mechanical angle, index base, filtered speed, edge
timer) and leaves every other field — in particular the electrical offset —
unchanged; `reset_speed_filter(v)` sets the filtered speed to `v`, zeroes the
edge timer, and changes nothing else. -/
theorem C10_reset_and_filter_frame (s : HallSensor) (v : ℚ) :
    s.reset = { s with prev_state := 255, mechanical_angle := 0, hall_idx_base := 0,
                       speed_rpm := 0, time_since_edge := 0 }
    ∧ s.reset_speed_filter v = { s with speed_rpm := v, time_since_edge := 0 } :=
  ⟨rfl, rfl⟩

/-- C4 counterexample: on an invalid Hall code with no capture timeout the
reported speed is not forced to 0 — a sensor with a filtered speed of
100 RPM keeps reporting 100 RPM. -/
theorem C4_invalid_hall_counterexample :
    ((({ HallSensor.new 6 (1/20) with speed_rpm := 100, mechanical_angle := 1/2
        } : HallSensor).update
        { hall_state := 0, timeout := false, period_cycles := 0 } (1/2500)).2.2 = 100)
    ∧ ¬ ((({ HallSensor.new 6 (1/20) with speed_rpm := 100, mechanical_angle := 1/2
        } : HallSensor).update
        { hall_state := 0, timeout := false, period_cycles := 0 } (1/2500)).2.2 = 0) := by
  have h : (({ HallSensor.new 6 (1/20) with speed_rpm := 100, mechanical_angle := 1/2
      } : HallSensor).update
      { hall_state := 0, timeout := false, period_cycles := 0 } (1/2500)).2.2 = 100 := by
    norm_num [HallSensor.update, HallSensor.new, is_valid_state]
  exact ⟨h, by rw [h]; norm_num⟩

/-- C4 amended: on an invalid raw Hall code (not in 1..6) `update` holds the
stored mechanical angle, Hall index base and previous state, forces the speed
to 0 only when the capture timeout is also flagged (otherwise it keeps the
previous filtered speed), and still returns
`electrical_angle = mechanical_angle × pole_pairs − electrical_offset`. -/
theorem C4_invalid_hall_behavior (s : HallSensor) (env : HallEnv) (dt : ℚ)
    (h : ¬ is_valid_state env.hall_state = true) :
    (s.update env dt).1.mechanical_angle = s.mechanical_angle
    ∧ (s.update env dt).2.1 = s.mechanical_angle * (s.pole_pairs : ℚ) - s.electrical_offset
    ∧ (s.update env dt).2.2 = (if env.timeout then 0 else s.speed_rpm)
    ∧ (s.update env dt).1.speed_rpm = (if env.timeout then 0 else s.speed_rpm)
    ∧ (s.update env dt).1.hall_idx_base = s.hall_idx_base
    ∧ (s.update env dt).1.prev_state = s.prev_state
    ∧ (s.update env dt).1.electrical_offset = s.electrical_offset
    ∧ (s.update env dt).1.time_since_edge
        = (if env.timeout then 0 else s.time_since_edge + dt) := by
  cases henv : env.timeout <;> simp [HallSensor.update, h, henv]

/-- C4 witness: the amended behaviour applied to a concrete sensor reading an
invalid code 0 with no timeout. -/
theorem C4_invalid_hall_witness :
    (({ HallSensor.new 6 (1/20) with speed_rpm := 42 } : HallSensor).update
      { hall_state := 0, timeout := false, period_cycles := 0 } (1/2500)).2.2 = 42 := by
  have h := (C4_invalid_hall_behavior
    ({ HallSensor.new 6 (1/20) with speed_rpm := 42 } : HallSensor)
    { hall_state := 0, timeout := false, period_cycles := 0 } (1/2500) (by decide)).2.2.1
  simpa using h

/-- C6: in `FindDirection`, once the requested shaft position has completed
at least one full rotation, if the actual shaft position (after this call's
sensor update) still has rotation count 0 and angle below 0.1 rad, then
`MotorCalibration::update` returns `Err(())`, the state becomes `Completed`,
and the result has `success = false`. -/
theorem C6_calibration_direction_fail (c : MotorCalibration) (sensor_angle : ℚ) (hall : ℕ)
    (hstate : c.state = .FindDirection)
    (hreq : c.shaft_position_req.rotations ≥ 1)
    (hrot : (c.shaft_position_act.update_shaft_angle sensor_angle).rotations = 0)
    (hang : (c.shaft_position_act.update_shaft_angle sensor_angle).angle < 1/10) :
    (c.update sensor_angle hall).2 = .error ()
    ∧ (c.update sensor_angle hall).1.state = .Completed
    ∧ (c.update sensor_angle hall).1.result.success = false := by
  have hang' : (c.shaft_position_act.update_shaft_angle sensor_angle).angle < (10 : ℚ)⁻¹ := by
    rwa [← one_div]
  simp [MotorCalibration.update, hstate, hreq, hrot, hang']

/-- C6 witness: a session in `FindDirection` with one completed requested
rotation and an unmoved actual shaft fails with `success = false`. -/
theorem C6_calibration_direction_fail_witness :
    (({ MotorCalibration.new 6 (1/5) with
        state := .FindDirection
        shaft_position_req := { ShaftPosition.new with rotations := 1 }
      } : MotorCalibration).update 0 1).2 = .error () ∧
    (({ MotorCalibration.new 6 (1/5) with
        state := .FindDirection
        shaft_position_req := { ShaftPosition.new with rotations := 1 }
      } : MotorCalibration).update 0 1).1.result.success = false := by
  have h := C6_calibration_direction_fail
    ({ MotorCalibration.new 6 (1/5) with
       state := .FindDirection
       shaft_position_req := { ShaftPosition.new with rotations := 1 } } : MotorCalibration)
    0 1 rfl (by decide)
    (by norm_num [ShaftPosition.update_shaft_angle, ShaftPosition.new, ShaftPosition.clamp,
          ratTrunc, tau, MotorCalibration.new])
    (by norm_num [ShaftPosition.update_shaft_angle, ShaftPosition.new, ShaftPosition.clamp,
          ratTrunc, tau, MotorCalibration.new])
  exact ⟨h.1, h.2.2⟩

/-- Field-frame fact: `OpenLoopSixStep::update` never changes the minimum
step period or the decay factor. -/
theorem OpenLoopSixStep.update_fields (s : OpenLoopSixStep) (dt : ℚ) :
    (s.update dt).1.min_step_period = s.min_step_period
    ∧ (s.update dt).1.acceleration_rate = s.acceleration_rate := by
  simp only [OpenLoopSixStep.update]
  split <;> simp

/-- Single-step behaviour of the step period: assuming the invariant, each
`update` keeps the period in `[min, old]`, and the period either stays put or
becomes `max (old × decay, min)`. -/
theorem OpenLoopSixStep.update_period (s : OpenLoopSixStep) (dt : ℚ)
    (hmin : s.min_step_period ≤ s.step_period)
    (hrate : s.acceleration_rate ≤ 1)
    (h0 : 0 ≤ s.min_step_period) :
    s.min_step_period ≤ (s.update dt).1.step_period
    ∧ (s.update dt).1.step_period ≤ s.step_period
    ∧ ((s.update dt).1.step_period = s.step_period
        ∨ (s.update dt).1.step_period
            = max (s.step_period * s.acceleration_rate) s.min_step_period) := by
  have hp0 : 0 ≤ s.step_period := le_trans h0 hmin
  have hdec : s.step_period * s.acceleration_rate ≤ s.step_period := by
    calc s.step_period * s.acceleration_rate ≤ s.step_period * 1 :=
          mul_le_mul_of_nonneg_left hrate hp0
      _ = s.step_period := mul_one _
  simp only [OpenLoopSixStep.update]
  by_cases h1 : s.elapsed_time + dt ≥ s.step_period
  · by_cases h2 : s.step_period > s.min_step_period
    · by_cases h3 : s.step_period * s.acceleration_rate < s.min_step_period
      · simp only [h1, h2, h3, if_pos, if_true]
        refine ⟨le_refl _, le_of_lt h2, Or.inr ?_⟩
        rw [max_eq_right (le_of_lt h3)]
      · simp only [h1, h2, h3, if_pos, if_true, if_false]
        refine ⟨le_of_not_lt h3, hdec, Or.inr ?_⟩
        rw [max_eq_left (le_of_not_lt h3)]
    · simp only [h1, h2, if_true, if_false]
      exact ⟨hmin, le_refl _, Or.inl trivial⟩
  · simp only [h1, if_false]
    exact ⟨hmin, le_refl _, Or.inl trivial⟩

/-- Invariant carried across `OpenLoopSixStep::update` sequences. -/
def OpenLoopSixStep.Inv (s : OpenLoopSixStep) : Prop :=
  s.min_step_period ≤ s.step_period ∧ s.acceleration_rate ≤ 1 ∧ 0 ≤ s.min_step_period

/-- `update` preserves the invariant. -/
theorem OpenLoopSixStep.inv_update (s : OpenLoopSixStep) (dt : ℚ) (h : s.Inv) :
    (s.update dt).1.Inv := by
  obtain ⟨hmin, hrate, h0⟩ := h
  have hp := OpenLoopSixStep.update_period s dt hmin hrate h0
  have hf := OpenLoopSixStep.update_fields s dt
  exact ⟨hf.1 ▸ hp.1, hf.2 ▸ hrate, hf.1 ▸ h0⟩

/-- The invariant holds along any update sequence. -/
theorem OpenLoopSixStep.inv_applyUpdates (s : OpenLoopSixStep) (dts : List ℚ) (h : s.Inv) :
    (s.applyUpdates dts).Inv := by
  induction dts generalizing s with
  | nil => exact h
  | cons dt dts ih => exact ih _ (OpenLoopSixStep.inv_update s dt h)

/-- The constructor establishes the invariant whenever the pole-pair count is
positive and `0 < initial_rpm ≤ target_rpm` (so the initial step period is at
least the minimum one). -/
theorem OpenLoopSixStep.new_inv (initial_rpm target_rpm acceleration_rpm_per_s : ℚ)
    (duty_ratio pole_pairs : ℕ) (hpp : 1 ≤ pole_pairs)
    (h1 : 0 < initial_rpm) (h2 : initial_rpm ≤ target_rpm) :
    (OpenLoopSixStep.new initial_rpm target_rpm acceleration_rpm_per_s duty_ratio
      pole_pairs).Inv := by
  have hspr : (0:ℚ) < 6 * (pole_pairs : ℚ) := by
    have : (1:ℚ) ≤ (pole_pairs : ℚ) := by exact_mod_cast hpp
    nlinarith
  have htr : (0:ℚ) < target_rpm := lt_of_lt_of_le h1 h2
  have hiden : (0:ℚ) < initial_rpm * (6 * (pole_pairs : ℚ)) := mul_pos h1 hspr
  refine ⟨?_, ?_, ?_⟩
  · simp only [OpenLoopSixStep.new]
    apply div_le_div_of_nonneg_left (by norm_num) hiden
    exact mul_le_mul_of_nonneg_right h2 (le_of_lt hspr)
  · simp only [OpenLoopSixStep.new]
    split
    · rename_i hacc
      have hterm : 0 ≤ acceleration_rpm_per_s
          * (60 / (initial_rpm * (6 * (pole_pairs : ℚ)))) / initial_rpm := by
        positivity
      linarith
    · norm_num
  · simp only [OpenLoopSixStep.new]
    positivity

/-- C5 counterexample: the claim's "for every parameterization accepted by
the constructor" fails — with `initial_rpm = 2000 > target_rpm = 1000` the
constructor produces a step period strictly below the minimum (target-RPM)
period, and it is still below it after an update. -/
theorem C5_openloop_counterexample :
    (((OpenLoopSixStep.new 2000 1000 0 50 7).update 1).1.step_period
      < ((OpenLoopSixStep.new 2000 1000 0 50 7).update 1).1.min_step_period)
    ∧ ((OpenLoopSixStep.new 2000 1000 0 50 7).step_period
      < (OpenLoopSixStep.new 2000 1000 0 50 7).min_step_period) := by
  norm_num [OpenLoopSixStep.update, OpenLoopSixStep.new]

/-- C5 amended: for every parameterization with a positive pole-pair count
and `0 < initial_rpm ≤ target_rpm`, across any sequence of `update(dt)` calls
the step period never goes below the minimum (target-RPM) period, each
further update either leaves it unchanged or shrinks it multiplicatively to
`max (period × decay, min)`, and `is_target_reached()` is true exactly when
the step period has reached the minimum. -/
theorem C5_openloop_period_invariant (initial_rpm target_rpm acceleration_rpm_per_s : ℚ)
    (duty_ratio pole_pairs : ℕ) (hpp : 1 ≤ pole_pairs)
    (h1 : 0 < initial_rpm) (h2 : initial_rpm ≤ target_rpm) (dts : List ℚ) :
    ∀ s : OpenLoopSixStep,
      s = (OpenLoopSixStep.new initial_rpm target_rpm acceleration_rpm_per_s duty_ratio
        pole_pairs).applyUpdates dts →
      s.min_step_period ≤ s.step_period
      ∧ (∀ dt : ℚ,
          (s.update dt).1.step_period ≤ s.step_period
          ∧ ((s.update dt).1.step_period = s.step_period
              ∨ (s.update dt).1.step_period
                  = max (s.step_period * s.acceleration_rate) s.min_step_period))
      ∧ (s.is_target_reached = true ↔ s.step_period = s.min_step_period) := by
  rintro s rfl
  have hinv := OpenLoopSixStep.inv_applyUpdates _ dts
    (OpenLoopSixStep.new_inv initial_rpm target_rpm acceleration_rpm_per_s duty_ratio
      pole_pairs hpp h1 h2)
  obtain ⟨hmin, hrate, h0⟩ := hinv
  refine ⟨hmin, ?_, ?_⟩
  · intro dt
    have h := OpenLoopSixStep.update_period _ dt hmin hrate h0
    exact ⟨h.2.1, h.2.2⟩
  · simp only [OpenLoopSixStep.is_target_reached, decide_eq_true_eq]
    exact ⟨fun hle => le_antisymm hle hmin, fun heq => le_of_eq heq⟩

/-- C5 witness: the invariant applied to the firmware's default open-loop
parameterization after one long update step. -/
theorem C5_openloop_witness :
    ((OpenLoopSixStep.new 30 500 50 50 6).applyUpdates [1]).min_step_period
      ≤ ((OpenLoopSixStep.new 30 500 50 50 6).applyUpdates [1]).step_period := by
  have h := C5_openloop_period_invariant 30 500 50 50 6 (by norm_num) (by norm_num)
    (by norm_num) [1] _ rfl
  exact h.1

/-- C1: in `ClosedLoopFoc` mode, a control tick that reads an invalid Hall
code writes zero to all three PWM duties, resets the speed PI controller
(integral and last output, gains untouched), zeroes the ramped target speed,
and performs no further FOC processing: the mode stays `ClosedLoopFoc`, the
open-loop and calibration state are untouched, and the Hall estimator holds
exactly the result of its regular pre-dispatch update for that tick. -/
theorem C1_foc_invalid_hall_safety (trig : ℚ → ℚ × ℚ) (sq : ℚ → ℚ) (env : TickEnv) (dt : ℚ)
    (s : MotorState)
    (hmode : s.mode = .ClosedLoopFoc)
    (hinvalid : ¬ (1 ≤ env.hall_state ∧ env.hall_state ≤ 6)) :
    (tick trig sq env dt s).2 = { duty_u := 0, duty_v := 0, duty_w := 0 }
    ∧ (tick trig sq env dt s).1.speed_pi = s.speed_pi.reset
    ∧ (tick trig sq env dt s).1.speed_pi.integral = 0
    ∧ (tick trig sq env dt s).1.speed_pi.last_output = 0
    ∧ (tick trig sq env dt s).1.speed_pi.kp = s.speed_pi.kp
    ∧ (tick trig sq env dt s).1.ramped_target_speed = 0
    ∧ (tick trig sq env dt s).1.mode = .ClosedLoopFoc
    ∧ (tick trig sq env dt s).1.openloop = s.openloop
    ∧ (tick trig sq env dt s).1.calibration = s.calibration
    ∧ (tick trig sq env dt s).1.hall
        = (s.hall.update
            { hall_state := env.hall_state, timeout := env.timeout,
              period_cycles := env.period_cycles } dt).1 := by
  simp [tick, hmode, hinvalid, PiController.reset]

/-- C1 witness: the safety path applied to a concrete closed-loop state that
reads the invalid Hall code 7. -/
theorem C1_foc_invalid_hall_witness :
    (tick (fun _ => (1, 0)) (fun _ => 0)
      { hall_state := 7, timeout := false, period_cycles := 1000,
        target_speed := 100, kp := 1, ki := 1 } (1/2500)
      { hall := HallSensor.new 6 (1/20)
        speed_pi := { PiController.new_symmetric 1 1 24 with integral := 5, last_output := 3 }
        openloop := OpenLoopSixStep.new 30 500 50 50 6
        calibration := MotorCalibration.new 6 (1/5)
        mode := .ClosedLoopFoc
        ramped_target_speed := 250 }).2 = { duty_u := 0, duty_v := 0, duty_w := 0 }
    ∧ (tick (fun _ => (1, 0)) (fun _ => 0)
      { hall_state := 7, timeout := false, period_cycles := 1000,
        target_speed := 100, kp := 1, ki := 1 } (1/2500)
      { hall := HallSensor.new 6 (1/20)
        speed_pi := { PiController.new_symmetric 1 1 24 with integral := 5, last_output := 3 }
        openloop := OpenLoopSixStep.new 30 500 50 50 6
        calibration := MotorCalibration.new 6 (1/5)
        mode := .ClosedLoopFoc
        ramped_target_speed := 250 }).1.ramped_target_speed = 0 := by
  have h := C1_foc_invalid_hall_safety (fun _ => (1, 0)) (fun _ => 0)
    { hall_state := 7, timeout := false, period_cycles := 1000,
      target_speed := 100, kp := 1, ki := 1 } (1/2500)
    { hall := HallSensor.new 6 (1/20)
      speed_pi := { PiController.new_symmetric 1 1 24 with integral := 5, last_output := 3 }
      openloop := OpenLoopSixStep.new 30 500 50 50 6
      calibration := MotorCalibration.new 6 (1/5)
      mode := .ClosedLoopFoc
      ramped_target_speed := 250 } rfl (by decide)
  exact ⟨h.1, h.2.2.2.2.2.1⟩

end G4
